import Mathlib

/-!
Shallow embedding of the derived reactive store in src/src/derive.ts.

Source values held by dependency stores are modelled by a type `α`
(the dependency tuple becomes a `List α`); the derived value type `T`
may contain the JavaScript values null and undefined, so it is modelled
as `Option β` with `none` standing for null/undefined.  Listeners of the
derived store are identified by a type `L` with decidable equality: a
JavaScript `Set` keyed by reference identity becomes a duplicate-free
`List L` in insertion order.  A combine function that may throw is
modelled with `Except ε`; the throw-free case instantiates `ε := Empty`.
-/

namespace Derive

/-- The value object held by the internal bookkeeping store created by
`createObjectStore` in `derive`: fields `listeners`, `depsState`,
`prevDepsState`, `state`, `prevState`, `depsSubs`.  The `depsSubs`
field holds unsubscribe closures in the source; only its length is
observable, so it is modelled as a count. -/
structure DerivedInternal (α β L : Type) where
  listeners : List L
  depsState : List α
  prevDepsState : Option (List α)
  state : Option β
  prevState : Option β
  depsSubs : Nat
  deriving Repr, DecidableEq

variable {α β L ε : Type}

/-- JavaScript nullish coalescing `a ?? b` on nullable values. -/
def jsCoalesce (a b : Option β) : Option β :=
  match a with
  | some v => some v
  | none => b

/-- Wrap a total combine function as a never-throwing `Except`-valued one. -/
def pureCombine (combine : List α → Option (List α) → Option β → Option β) :
    List α → Option (List α) → Option β → Except Empty (Option β) :=
  fun d p s => .ok (combine d p s)

/-- Construction of the bookkeeping state in `derive` (lines 45-112 of
derive.ts), with a combine function that may throw: reads the current
value of every source store into `initialDepsState`, computes the
initial derived value `onChange(initialDepsState, null, null)` (a throw
there propagates out of `derive` itself), initializes the bookkeeping
fields, and finally stores the `depsSubs` list (one unsubscribe handle
per source). -/
def deriveInitE (srcVals : List α)
    (combine : List α → Option (List α) → Option β → Except ε (Option β)) :
    Except ε (DerivedInternal α β L) :=
  match combine srcVals none none with
  | .error e => .error e
  | .ok st =>
      .ok { listeners := []
            depsState := srcVals
            prevDepsState := none
            state := st
            prevState := none
            depsSubs := srcVals.length }

/-- Construction with a total (non-throwing) combine function. -/
def deriveInit (srcVals : List α)
    (combine : List α → Option (List α) → Option β → Option β) :
    DerivedInternal α β L :=
  match deriveInitE srcVals (pureCombine combine) with
  | .ok s => s
  | .error e => e.elim

/-- The reaction subscribed to source store `index` (lines 82-111 of
derive.ts), for a combine function that may throw.  It reads
`currentDepsState`, builds a fresh `newDepsState` with slot `index`
replaced by the incoming value, reads the current derived value as
`prevState`, computes `newState = onChange(newDepsState,
currentDepsState, prevState)` — a throw here propagates to the caller
before any write — then merges the four fields into the bookkeeping
store in one `setState` and fans out to every listener with
`(newState, prevState ?? newState)`.  The result pairs the outcome
(the ordered list of listener invocations, or the propagated error)
with the bookkeeping state after the call. -/
def reactE (combine : List α → Option (List α) → Option β → Except ε (Option β))
    (index : Nat) (depState : α) (s : DerivedInternal α β L) :
    Except ε (List (L × Option β × Option β)) × DerivedInternal α β L :=
  let currentDepsState := s.depsState
  let newDepsState := currentDepsState.set index depState
  let prevState := s.state
  match combine newDepsState (some currentDepsState) prevState with
  | .error e => (.error e, s)
  | .ok newState =>
      let s' : DerivedInternal α β L :=
        { s with prevDepsState := some currentDepsState
                 depsState := newDepsState
                 prevState := prevState
                 state := newState }
      (.ok (s'.listeners.map fun l => (l, newState, jsCoalesce prevState newState)), s')

/-- The source-change reaction with a total combine function: returns
the list of listener invocations `(listener, newState, prevArg)` in
fan-out order, and the updated bookkeeping state. -/
def react (combine : List α → Option (List α) → Option β → Option β)
    (index : Nat) (depState : α) (s : DerivedInternal α β L) :
    List (L × Option β × Option β) × DerivedInternal α β L :=
  match reactE (pureCombine combine) index depState s with
  | (.ok ns, s') => (ns, s')
  | (.error e, _) => e.elim

/-- The `getState` of the returned facade (line 115 of derive.ts):
reads the `state` field of the bookkeeping store. -/
def getState (s : DerivedInternal α β L) : Option β :=
  s.state

/-- The `subscribe` of the returned facade (lines 117-123): replaces the
listener set by `new Set([...listeners, listener])`.  Spreading a Set
preserves insertion order and the Set constructor drops duplicates, so
the new listener is appended only when not already present. -/
def subscribe [DecidableEq L] (l : L) (s : DerivedInternal α β L) :
    DerivedInternal α β L :=
  { s with listeners := if l ∈ s.listeners then s.listeners else s.listeners ++ [l] }

/-- The unsubscribe closure returned by `subscribe` (lines 124-130):
deletes the captured listener from the current listener set in place and
writes the set back. -/
def unsubscribe [DecidableEq L] (l : L) (s : DerivedInternal α β L) :
    DerivedInternal α β L :=
  { s with listeners := s.listeners.erase l }

/-- The error thrown by `setState` on the derived facade
(`SetStateError` in the source, named ReadOnlyStoreError by the spec). -/
inductive StoreError where
  | setStateError (msg : String)
  deriving Repr, DecidableEq

/-- The `setState` of the returned facade (lines 132-134): throws
`SetStateError` unconditionally, before touching any state. -/
def facadeSetState (s : DerivedInternal α β L) :
    Except StoreError Unit × DerivedInternal α β L :=
  (.error (.setStateError "setState is not available in derived store"), s)

/-- An externally observable action on a derived store after
construction: a notification from source `index` with a new value, a
`subscribe` call, or a call of an unsubscribe closure. -/
inductive Event (α L : Type) where
  | update (index : Nat) (x : α)
  | sub (l : L)
  | unsub (l : L)

/-- One observable action applied to the bookkeeping state. -/
def step [DecidableEq L] (combine : List α → Option (List α) → Option β → Option β) :
    Event α L → DerivedInternal α β L → DerivedInternal α β L
  | .update i x, s => (react combine i x s).2
  | .sub l, s => subscribe l s
  | .unsub l, s => unsubscribe l s

/-- A finite sequence of observable actions applied in order. -/
def run [DecidableEq L] (combine : List α → Option (List α) → Option β → Option β)
    (evs : List (Event α L)) (s : DerivedInternal α β L) : DerivedInternal α β L :=
  evs.foldl (fun s e => step combine e s) s

/-- A finite sequence of source updates, together with the concatenated
log of all listener invocations they produce, in order. -/
def runUpdates (combine : List α → Option (List α) → Option β → Option β) :
    List (Nat × α) → DerivedInternal α β L →
    DerivedInternal α β L × List (L × Option β × Option β)
  | [], s => (s, [])
  | u :: us, s =>
      let r := react combine u.1 u.2 s
      let rest := runUpdates combine us r.2
      (rest.1, r.1 ++ rest.2)

/-- The consistency invariant of the spec: the facade `getState` equals
the combine function applied to the stored bookkeeping fields. -/
def Consistent (combine : List α → Option (List α) → Option β → Option β)
    (s : DerivedInternal α β L) : Prop :=
  getState s = combine s.depsState s.prevDepsState s.prevState

/-- The example combine function of spec section 8: the sum of the
dependency values, ignoring both previous arguments. -/
def sumCombine : List Nat → Option (List Nat) → Option Nat → Option Nat :=
  fun d _ _ => some (d.foldl (· + ·) 0)

/-- A combine function that succeeds on the initial computation (where
`prevDepsState` is null) and throws on every reaction, used to observe
the failure path of `reactE`. -/
def boomCombine : List Nat → Option (List Nat) → Option Nat → Except String (Option Nat)
  | d, none, _ => .ok (some (d.foldl (· + ·) 0))
  | _, some _, _ => .error "boom"

/-- The concrete bookkeeping state produced by constructing a derived
store over sources with values 2 and 3 using `boomCombine`. -/
def c6S0 : DerivedInternal Nat Nat Nat :=
  { listeners := []
    depsState := [2, 3]
    prevDepsState := none
    state := some 5
    prevState := none
    depsSubs := 2 }

/-- The bookkeeping state used by several concrete scenarios: a derived
store over sources with values 2 and 3 combined by `sumCombine`, as in
spec section 8. -/
def exampleInit : DerivedInternal Nat Nat Nat :=
  deriveInit [2, 3] sumCombine

theorem react_eq (combine : List α → Option (List α) → Option β → Option β)
    (index : Nat) (x : α) (s : DerivedInternal α β L) :
    react combine index x s =
      (s.listeners.map fun l =>
          (l, combine (s.depsState.set index x) (some s.depsState) s.state,
            jsCoalesce s.state (combine (s.depsState.set index x) (some s.depsState) s.state)),
        { s with prevDepsState := some s.depsState
                 depsState := s.depsState.set index x
                 prevState := s.state
                 state := combine (s.depsState.set index x) (some s.depsState) s.state }) := by
  rfl

theorem react_listeners (combine : List α → Option (List α) → Option β → Option β)
    (index : Nat) (x : α) (s : DerivedInternal α β L) :
    (react combine index x s).2.listeners = s.listeners := by
  rw [react_eq]

theorem react_notif_fst (combine : List α → Option (List α) → Option β → Option β)
    (index : Nat) (x : α) (s : DerivedInternal α β L) :
    ((react combine index x s).1.map Prod.fst) = s.listeners := by
  rw [react_eq, List.map_map]
  exact List.map_id s.listeners

theorem subscribe_nodup [DecidableEq L] (l : L) (s : DerivedInternal α β L)
    (h : s.listeners.Nodup) : (subscribe l s).listeners.Nodup := by
  by_cases hm : l ∈ s.listeners
  · simp only [subscribe, if_pos hm]
    exact h
  · simp only [subscribe, if_neg hm]
    exact h.append (List.nodup_singleton l)
      (fun a ha hal => hm ((List.mem_singleton.mp hal) ▸ ha))

/-- C1: For every fixed-length list of source stores with current values
v1..vn and every pure combine function, the derived store returned by
derive, immediately after construction and before any source
notification, has getState() equal to combine([v1..vn], null, null),
and the initial bookkeeping fields are depsState = [v1..vn],
prevDepsState = null, prevState = null. -/
theorem C1_initial_value (srcVals : List α)
    (combine : List α → Option (List α) → Option β → Option β) :
    getState (deriveInit (L := L) srcVals combine) = combine srcVals none none ∧
    (deriveInit (L := L) srcVals combine).depsState = srcVals ∧
    (deriveInit (L := L) srcVals combine).prevDepsState = none ∧
    (deriveInit (L := L) srcVals combine).prevState = none := by
  refine ⟨rfl, rfl, rfl, rfl⟩

/-- C2: At every observable instant after construction and after each
completed source-change reaction, getState() equals
combine(depsState, prevDepsState, prevState) applied to the bookkeeping
fields as stored by the most recent update; no reachable state is stale
or inconsistent with those fields. -/
theorem C2_consistency [DecidableEq L] (srcVals : List α)
    (combine : List α → Option (List α) → Option β → Option β)
    (evs : List (Event α L)) :
    Consistent combine (run combine evs (deriveInit srcVals combine)) := by
  have hstep : ∀ (e : Event α L) (s : DerivedInternal α β L),
      Consistent combine s → Consistent combine (step combine e s) := by
    intro e s hs
    cases e with
    | update i x => simp [step, react_eq, Consistent, getState]
    | sub l => simpa [step, subscribe, Consistent, getState] using hs
    | unsub l => simpa [step, unsubscribe, Consistent, getState] using hs
  have hrun : ∀ (evs : List (Event α L)) (s : DerivedInternal α β L),
      Consistent combine s → Consistent combine (run combine evs s) := by
    intro evs
    induction evs with
    | nil => intro s hs; exact hs
    | cons e es ih =>
        intro s hs
        exact ih (step combine e s) (hstep e s hs)
  exact hrun evs _ rfl

/-- C3: For every derived store and every argument, calling setState on
the derived facade always throws the distinguished read-only error
(SetStateError in the source, ReadOnlyStoreError in the naming of the
spec) synchronously, and the call has no side effects: getState() and
all bookkeeping fields are unchanged by the failed call. -/
theorem C3_read_only (s : DerivedInternal α β L) :
    (facadeSetState s).1 =
      .error (.setStateError "setState is not available in derived store") ∧
    (facadeSetState s).2 = s ∧
    getState (facadeSetState s).2 = getState s := by
  exact ⟨rfl, rfl, rfl⟩

/-- C4: For every source index i and every update in which source i
notifies with new value x, the reaction produces a fresh depsState tuple
of the same fixed length in which slot i equals x and every slot j not
equal to i is unchanged from the tuple before the update; the previous
tuple becomes prevDepsState (value semantics: the new tuple is built by
copying, never by mutating the old one). -/
theorem C4_propagation [DecidableEq L]
    (combine : List α → Option (List α) → Option β → Option β)
    (s : DerivedInternal α β L) (i : Nat) (x : α)
    (h : i < s.depsState.length) :
    (react combine i x s).2.depsState.length = s.depsState.length ∧
    (react combine i x s).2.depsState[i]? = some x ∧
    (∀ j, j ≠ i → (react combine i x s).2.depsState[j]? = s.depsState[j]?) ∧
    (react combine i x s).2.prevDepsState = some s.depsState := by
  rw [react_eq]
  refine ⟨List.length_set .., List.getElem?_set_eq_of_lt x h, ?_, rfl⟩
  intro j hj
  exact List.getElem?_set_ne hj.symm

/-- Closed instance of C4: the spec section 8 scenario, updating source
0 from 2 to 10 in the derived sum store. -/
theorem C4_propagation_witness :
    0 < exampleInit.depsState.length ∧
    ((react sumCombine 0 10 exampleInit).2.depsState.length
        = exampleInit.depsState.length ∧
      (react sumCombine 0 10 exampleInit).2.depsState[0]? = some 10 ∧
      (∀ j, j ≠ 0 → (react sumCombine 0 10 exampleInit).2.depsState[j]?
          = exampleInit.depsState[j]?) ∧
      (react sumCombine 0 10 exampleInit).2.prevDepsState
        = some exampleInit.depsState) :=
  ⟨by decide, C4_propagation sumCombine exampleInit 0 10 (by decide)⟩

/-- C5 counterexample: subscribing the same listener value (here the
listener identified by 7) twice yields a single registration, because
the listener container is a Set: the listener list is [7], not two
entries; a single unsubscribe removes it entirely, and a subsequent
source update delivers no notification at all — refuting the claim that
the two subscriptions are independent registrations. -/
theorem C5_counterexample :
    (subscribe 7 (subscribe 7 exampleInit)).listeners = [7] ∧
    (unsubscribe 7 (subscribe 7 (subscribe 7 exampleInit))).listeners = [] ∧
    (react sumCombine 0 10
        (unsubscribe 7 (subscribe 7 (subscribe 7 exampleInit)))).1 = [] := by
  exact ⟨rfl, rfl, rfl⟩

/-- C5 amended: two subscribe calls passing the same listener value are
deduplicated into one registration (the second subscribe leaves the
bookkeeping state unchanged), and a single unsubscribe removes the
listener from the set entirely. -/
theorem C5_dedup [DecidableEq L] (s : DerivedInternal α β L) (l : L)
    (h : s.listeners.Nodup) :
    subscribe l (subscribe l s) = subscribe l s ∧
    l ∉ (unsubscribe l (subscribe l (subscribe l s))).listeners := by
  have hmem : l ∈ (subscribe l s).listeners := by
    simp only [subscribe]
    split
    · assumption
    · simp
  have hdup : subscribe l (subscribe l s) = subscribe l s := by
    have hsub : ∀ t : DerivedInternal α β L, l ∈ t.listeners → subscribe l t = t := by
      intro t ht
      simp [subscribe, ht]
    exact hsub (subscribe l s) hmem
  refine ⟨hdup, ?_⟩
  rw [hdup]
  exact (subscribe_nodup l s h).not_mem_erase

/-- Closed instance of the amended C5 at the concrete example store and
listener 7. -/
theorem C5_dedup_witness :
    exampleInit.listeners.Nodup ∧
    (subscribe 7 (subscribe 7 exampleInit) = subscribe 7 exampleInit ∧
      7 ∉ (unsubscribe 7 (subscribe 7 (subscribe 7 exampleInit))).listeners) :=
  ⟨by decide, C5_dedup exampleInit 7 (by decide)⟩

/-- C6 counterexample: with a combine function that succeeds at
construction and throws on the first reaction, the aborted reaction
leaves the bookkeeping store exactly equal to its pre-update value
(state still some 5, depsState still [2, 3], and state still matching
the sum of depsState) — there is no value mismatch between the state
field and the depsState field and no partially-updated condition,
because the throw happens before the single setState write. -/
theorem C6_counterexample :
    deriveInitE [2, 3] boomCombine = .ok c6S0 ∧
    reactE boomCombine 0 10 c6S0 = (.error "boom", c6S0) ∧
    c6S0.state = some (c6S0.depsState.foldl (· + ·) 0) := by
  exact ⟨rfl, rfl, rfl⟩

/-- C6 amended: in every source-change reaction, if the combine function
throws, the error propagates to the caller of the triggering source
notification and the bookkeeping store is left entirely unchanged —
still internally consistent — because the only write happens after
combine returns. -/
theorem C6_throw_leaves_state
    (combine : List α → Option (List α) → Option β → Except ε (Option β))
    (i : Nat) (x : α) (s : DerivedInternal α β L) (e : ε)
    (h : combine (s.depsState.set i x) (some s.depsState) s.state = .error e) :
    reactE combine i x s = (.error e, s) := by
  simp [reactE, h]

/-- Closed instance of the amended C6: the throwing combine at the
concrete constructed store. -/
theorem C6_throw_leaves_state_witness :
    boomCombine (c6S0.depsState.set 0 10) (some c6S0.depsState) c6S0.state
      = .error "boom" ∧
    reactE boomCombine 0 10 c6S0 = (.error "boom", c6S0) :=
  ⟨rfl, C6_throw_leaves_state boomCombine 0 10 c6S0 "boom" rfl⟩

/-- C7 counterexample: in the spec section 8 scenario (sources 2 and 3,
sum combine, one listener), the very first source-change notification
delivers (13, 5): the previous-state argument is the true prior derived
value 5, not the new state 13 — refuting the claim that on the first
notification every listener receives a previous-state argument equal to
the new state itself. -/
theorem C7_counterexample :
    (react sumCombine 0 10 (subscribe 0 exampleInit)).1 = [(0, some 13, some 5)] ∧
    (some 5 : Option Nat) ≠ some 13 := by
  exact ⟨rfl, by decide⟩

/-- C7 amended: whenever the derived value before a reaction is non-null
(in particular on the first notification after construction, whenever
combine produced a non-null initial value), every listener receives as
previous-state argument that true prior derived value; the fallback to
the new state applies only when the prior derived value is
null/undefined. -/
theorem C7_first_notification [DecidableEq L]
    (combine : List α → Option (List α) → Option β → Option β)
    (i : Nat) (x : α) (s : DerivedInternal α β L) (v : β)
    (h : s.state = some v) :
    ∀ p ∈ (react combine i x s).1, p.2.2 = some v := by
  rw [react_eq]
  intro p hp
  simp only [List.mem_map] at hp
  obtain ⟨l, _, rfl⟩ := hp
  simp [jsCoalesce, h]

/-- Closed instance of the amended C7 at the spec section 8 scenario. -/
theorem C7_first_notification_witness :
    (subscribe 0 exampleInit).state = some 5 ∧
    ∀ p ∈ (react sumCombine 0 10 (subscribe 0 exampleInit)).1, p.2.2 = some 5 :=
  ⟨rfl, C7_first_notification sumCombine 0 10 (subscribe 0 exampleInit) 5 rfl⟩

/-- C8: For every source update and every listener in the listener set
of the derived store before that update, the listener is invoked exactly
once for that update (its identifier occurs exactly once in the fan-out
log), with a first argument equal to the value getState() returns after
the update completes. -/
theorem C8_fanout [DecidableEq L]
    (combine : List α → Option (List α) → Option β → Option β)
    (s : DerivedInternal α β L) (i : Nat) (x : α) (l : L)
    (hnd : s.listeners.Nodup) (hmem : l ∈ s.listeners) :
    ((react combine i x s).1.map Prod.fst).count l = 1 ∧
    ∀ p ∈ (react combine i x s).1, p.2.1 = getState (react combine i x s).2 := by
  constructor
  · rw [react_notif_fst]
    exact List.count_eq_one_of_mem hnd hmem
  · rw [react_eq]
    intro p hp
    simp only [List.mem_map] at hp
    obtain ⟨l', _, rfl⟩ := hp
    rfl

/-- Closed instance of C8: listener 0 at the spec section 8 scenario. -/
theorem C8_fanout_witness :
    (subscribe 0 exampleInit).listeners.Nodup ∧
    0 ∈ (subscribe 0 exampleInit).listeners ∧
    (((react sumCombine 0 10 (subscribe 0 exampleInit)).1.map Prod.fst).count 0 = 1 ∧
      ∀ p ∈ (react sumCombine 0 10 (subscribe 0 exampleInit)).1,
        p.2.1 = getState (react sumCombine 0 10 (subscribe 0 exampleInit)).2) :=
  ⟨by decide, by decide,
    C8_fanout sumCombine (subscribe 0 exampleInit) 0 10 0 (by decide) (by decide)⟩

/-- C9: After calling the unsubscribe handle returned by subscribe for a
given registration, that listener is never invoked again by the derived
store, for every subsequent sequence of source updates. -/
theorem C9_unsubscribed_silent [DecidableEq L]
    (combine : List α → Option (List α) → Option β → Option β)
    (s : DerivedInternal α β L) (l : L)
    (h : s.listeners.Nodup) (us : List (Nat × α)) :
    ∀ p ∈ (runUpdates combine us (unsubscribe l s)).2, p.1 ≠ l := by
  have key : ∀ (us : List (Nat × α)) (t : DerivedInternal α β L),
      l ∉ t.listeners → ∀ p ∈ (runUpdates combine us t).2, p.1 ≠ l := by
    intro us
    induction us with
    | nil => intro t _ p hp; simp [runUpdates] at hp
    | cons u us ih =>
        intro t ht p hp
        simp only [runUpdates, List.mem_append] at hp
        rcases hp with hp | hp
        · intro hpl
          apply ht
          have : p.1 ∈ (react combine u.1 u.2 t).1.map Prod.fst :=
            List.mem_map_of_mem Prod.fst hp
          rw [react_notif_fst] at this
          rwa [hpl] at this
        · exact ih (react combine u.1 u.2 t).2
            (by rwa [react_listeners]) p hp
  exact key us (unsubscribe l s) h.not_mem_erase

/-- Closed instance of C9: listener 0 unsubscribed from the spec section
8 store, then two further source updates. -/
theorem C9_unsubscribed_silent_witness :
    (subscribe 0 exampleInit).listeners.Nodup ∧
    ∀ p ∈ (runUpdates sumCombine [(0, 10), (1, 7)]
        (unsubscribe 0 (subscribe 0 exampleInit))).2, p.1 ≠ 0 :=
  ⟨by decide,
    C9_unsubscribed_silent sumCombine (subscribe 0 exampleInit) 0 (by decide)
      [(0, 10), (1, 7)]⟩

/-- C10: The unsubscribe closure returned by subscribe is idempotent:
calling it again after the listener has already been removed leaves the
listener set and every other bookkeeping field unchanged and does not
fail. -/
theorem C10_unsubscribe_idempotent [DecidableEq L]
    (s : DerivedInternal α β L) (l : L) (h : s.listeners.Nodup) :
    unsubscribe l (unsubscribe l s) = unsubscribe l s := by
  have herase : (s.listeners.erase l).erase l = s.listeners.erase l :=
    List.erase_of_not_mem h.not_mem_erase
  simp [unsubscribe, herase]

/-- Closed instance of C10 at the concrete example store. -/
theorem C10_unsubscribe_idempotent_witness :
    (subscribe 0 exampleInit).listeners.Nodup ∧
    unsubscribe 0 (unsubscribe 0 (subscribe 0 exampleInit))
      = unsubscribe 0 (subscribe 0 exampleInit) :=
  ⟨by decide, C10_unsubscribe_idempotent (subscribe 0 exampleInit) 0 (by decide)⟩

end Derive
